import Mathlib

/-
Verification of the Modulaur plugin host (src-tauri/src/plugins/mod.rs and
src-tauri/src/plugins/http.rs) against its natural-language specification.

The Rust code is shallowly embedded in Lean:
* guest linear memory is a total byte function together with a size; the
  wasmtime `Memory::read` / `Memory::write` bounds checks become explicit
  range checks (out-of-range fails, exactly as wasmtime fails);
* fallible Rust paths (`Result`) become `Except` / `Option` values;
* library calls whose internals are outside this repository (serde_json
  parsing/serialization, UTF-8 decoding, the reqwest network transport,
  and the compiled guest code itself) are oracle parameters: arbitrary
  total functions supplied to the embedded host logic, so every theorem
  quantifies over all possible behaviours of those collaborators.
-/

set_option autoImplicit false

namespace Modulaur

/-- The application error type (src-tauri/src/error.rs).  The plugin
subsystem only ever constructs the `Plugin(String)` variant, so only that
variant is embedded. -/
inductive AppError where
  | plugin (msg : String)
deriving DecidableEq, Repr

/-- Guest linear memory: a byte at every address plus the current size in
bytes.  Reads and writes beyond `size` fail, mirroring wasmtime's
`MemoryAccessError`. -/
structure Memory where
  data : Nat → Nat
  size : Nat

/-- The `len` bytes of guest memory starting at `offset` (meaningful when
`offset + len ≤ size`). -/
def Memory.bytes (m : Memory) (offset len : Nat) : List Nat :=
  (List.range len).map fun i => m.data (offset + i)

/-- Embeds `memory.read(&store, offset, &mut buf)` from wasmtime: succeeds and
yields the requested bytes when the range is in bounds, fails otherwise.
The host wraps the failure as in mod.rs line 300. -/
def Memory.read (m : Memory) (offset len : Nat) : Except AppError (List Nat) :=
  if offset + len ≤ m.size then
    .ok (m.bytes offset len)
  else
    .error (.plugin "Failed to read from WASM memory: out of bounds")

/-- Embeds `memory.write(&mut store, offset, bytes)` from wasmtime: in-bounds
writes update the addressed bytes, out-of-range writes fail. -/
def Memory.write (m : Memory) (offset : Nat) (bs : List Nat) : Except AppError Memory :=
  if offset + bs.length ≤ m.size then
    .ok { m with
          data := fun a =>
            if offset ≤ a ∧ a < offset + bs.length then bs.getD (a - offset) 0
            else m.data a }
  else
    .error (.plugin "Failed to write to WASM memory: out of bounds")

/-- Constant `MAX_RESULT_SIZE` from mod.rs line 282: `10 * 1024 * 1024`. -/
def MAX_RESULT_SIZE : Nat := 10 * 1024 * 1024

/-- Constant `CHUNK_SIZE` from mod.rs line 283: 4096. -/
def CHUNK_SIZE : Nat := 4096

/-- The error message produced at mod.rs lines 289-292. -/
def resultTooLargeMsg : String :=
  "Plugin result exceeds maximum size of " ++ toString MAX_RESULT_SIZE ++ " bytes"

/-- Embeds `chunk.iter().position(|&b| b == 0)` (mod.rs line 303): index of the
first zero byte of a list, if any. -/
def position0 : List Nat → Option Nat
  | [] => none
  | b :: rest => if b == 0 then some 0 else (position0 rest).map (· + 1)

/-- The result-read loop of `call_function` (mod.rs lines 280-311): read
guest memory from `offset` in chunks of at most `CHUNK_SIZE` bytes,
accumulating into `acc`, stopping at the first NUL byte; if the
accumulated result would exceed `MAX_RESULT_SIZE` the loop fails with the
result-too-large error.  A failing chunk read (out of bounds) fails the
loop with the wrapped read error. -/
def readResultLoop (m : Memory) (offset : Nat) (acc : List Nat) :
    Except AppError (List Nat) :=
  if h0 : MAX_RESULT_SIZE - acc.length = 0 then
    .error (.plugin resultTooLargeMsg)
  else
    if offset + min (MAX_RESULT_SIZE - acc.length) CHUNK_SIZE ≤ m.size then
      match position0 (m.bytes offset (min (MAX_RESULT_SIZE - acc.length) CHUNK_SIZE)) with
      | some nullPos =>
          .ok (acc ++ (m.bytes offset (min (MAX_RESULT_SIZE - acc.length) CHUNK_SIZE)).take nullPos)
      | none =>
          readResultLoop m (offset + min (MAX_RESULT_SIZE - acc.length) CHUNK_SIZE)
            (acc ++ m.bytes offset (min (MAX_RESULT_SIZE - acc.length) CHUNK_SIZE))
    else
      .error (.plugin "Failed to read from WASM memory: out of bounds")
termination_by MAX_RESULT_SIZE - acc.length
decreasing_by
  simp only [List.length_append, Memory.bytes, List.length_map, List.length_range]
  simp only [CHUNK_SIZE] at *
  omega

/-- Reading the result of a guest call back from guest memory, starting at
the pointer the guest returned (mod.rs lines 280-311, entered with an
empty accumulator). -/
def readResult (m : Memory) (resultPtr : Nat) : Except AppError (List Nat) :=
  readResultLoop m resultPtr []

theorem position0_eq_none_of (l : List Nat) (h : ∀ x ∈ l, x ≠ 0) :
    position0 l = none := by
  induction l with
  | nil => rfl
  | cons b rest ih =>
    have hb : b ≠ 0 := h b (List.mem_cons_self _ _)
    simp only [position0, beq_iff_eq, if_neg hb]
    rw [ih (fun x hx => h x (List.mem_cons_of_mem _ hx))]
    rfl

/-- The length of a chunk read by the result loop. -/
theorem bytes_length (m : Memory) (offset len : Nat) :
    (m.bytes offset len).length = len := by
  simp [Memory.bytes]

/-- Whatever the loop returns successfully is at most `MAX_RESULT_SIZE`
bytes long, provided the accumulator it started from was within the cap. -/
theorem readResultLoop_ok_length (m : Memory) (offset : Nat) (acc : List Nat) :
    acc.length ≤ MAX_RESULT_SIZE →
    ∀ res, readResultLoop m offset acc = .ok res → res.length ≤ MAX_RESULT_SIZE := by
  induction offset, acc using readResultLoop.induct m with
  | case1 offset acc h0 =>
    intro _ res hres
    rw [readResultLoop, dif_pos h0] at hres
    exact absurd hres (by simp)
  | case2 offset acc h0 hle nullPos hpos =>
    intro hacc res hres
    rw [readResultLoop, dif_neg h0] at hres
    simp only [if_pos hle, hpos] at hres
    have hres2 : acc ++ (m.bytes offset (min (MAX_RESULT_SIZE - acc.length) CHUNK_SIZE)).take nullPos
        = res := Except.ok.inj hres
    have htake : ((m.bytes offset (min (MAX_RESULT_SIZE - acc.length) CHUNK_SIZE)).take nullPos).length
        ≤ min (MAX_RESULT_SIZE - acc.length) CHUNK_SIZE := by
      rw [List.length_take, bytes_length]
      exact le_trans (Nat.min_le_right _ _) (le_refl _)
    have hcs : min (MAX_RESULT_SIZE - acc.length) CHUNK_SIZE ≤ MAX_RESULT_SIZE - acc.length :=
      Nat.min_le_left _ _
    have hlen : res.length ≤ acc.length + min (MAX_RESULT_SIZE - acc.length) CHUNK_SIZE := by
      rw [← hres2, List.length_append]
      exact Nat.add_le_add_left htake _
    omega
  | case3 offset acc h0 hle hpos ih =>
    intro hacc res hres
    rw [readResultLoop, dif_neg h0] at hres
    simp only [if_pos hle, hpos] at hres
    have hcs : min (MAX_RESULT_SIZE - acc.length) CHUNK_SIZE ≤ MAX_RESULT_SIZE - acc.length :=
      Nat.min_le_left _ _
    exact ih (by rw [List.length_append, bytes_length]; omega) res hres
  | case4 offset acc h0 hle =>
    intro _ res hres
    rw [readResultLoop, dif_neg h0] at hres
    simp only [if_neg hle] at hres
    exact absurd hres (by simp)

/-- If the guest never wrote a NUL terminator anywhere in the remaining
scan window, and the memory is large enough that every chunk read
succeeds, the loop terminates with the result-too-large error. -/
theorem readResultLoop_no_null (m : Memory) (offset : Nat) (acc : List Nat) :
    acc.length ≤ MAX_RESULT_SIZE →
    offset + (MAX_RESULT_SIZE - acc.length) ≤ m.size →
    (∀ i, i < MAX_RESULT_SIZE - acc.length → m.data (offset + i) ≠ 0) →
    readResultLoop m offset acc = .error (.plugin resultTooLargeMsg) := by
  induction offset, acc using readResultLoop.induct m with
  | case1 offset acc h0 =>
    intro _ _ _
    rw [readResultLoop, dif_pos h0]
  | case2 offset acc h0 hle nullPos hpos =>
    intro hacc hsz hnz
    exfalso
    have hnone : position0 (m.bytes offset (min (MAX_RESULT_SIZE - acc.length) CHUNK_SIZE)) = none := by
      apply position0_eq_none_of
      intro x hx
      rcases List.mem_map.mp hx with ⟨i, hi, hxi⟩
      have hilt : i < min (MAX_RESULT_SIZE - acc.length) CHUNK_SIZE := List.mem_range.mp hi
      exact hxi ▸ hnz i (lt_of_lt_of_le hilt (Nat.min_le_left _ _))
    rw [hpos] at hnone
    exact absurd hnone (by simp)
  | case3 offset acc h0 hle hpos ih =>
    intro hacc hsz hnz
    rw [readResultLoop, dif_neg h0]
    simp only [if_pos hle, hpos]
    have hcs : min (MAX_RESULT_SIZE - acc.length) CHUNK_SIZE ≤ MAX_RESULT_SIZE - acc.length :=
      Nat.min_le_left _ _
    apply ih
    · rw [List.length_append, bytes_length]; omega
    · rw [List.length_append, bytes_length]; omega
    · intro i hi
      rw [List.length_append, bytes_length] at hi
      have := hnz (min (MAX_RESULT_SIZE - acc.length) CHUNK_SIZE + i) (by omega)
      rw [← Nat.add_assoc] at this
      exact this
  | case4 offset acc h0 hle =>
    intro hacc hsz hnz
    exfalso
    have hcs : min (MAX_RESULT_SIZE - acc.length) CHUNK_SIZE ≤ MAX_RESULT_SIZE - acc.length :=
      Nat.min_le_left _ _
    omega

/-- Claim C1: for every guest call, the host's scan of guest memory for a
NUL terminator accumulates at most `10 * 1024 * 1024` bytes; if no NUL
terminator occurs within that cap (and the guest memory is large enough
that the chunk reads themselves succeed), the read fails with the
result-too-large error instead of accumulating further. -/
theorem c1_result_read_capped (m : Memory) (resultPtr : Nat) :
    (∀ res, readResult m resultPtr = .ok res → res.length ≤ MAX_RESULT_SIZE) ∧
    ((∀ i, i < MAX_RESULT_SIZE → m.data (resultPtr + i) ≠ 0) →
      resultPtr + MAX_RESULT_SIZE ≤ m.size →
      readResult m resultPtr = .error (.plugin resultTooLargeMsg)) := by
  constructor
  · intro res hres
    exact readResultLoop_ok_length m resultPtr [] (by simp) res hres
  · intro hnz hsz
    exact readResultLoop_no_null m resultPtr [] (by simp) (by simpa) (by simpa)

/-- Witness for C1: a guest memory filled with the nonzero byte 1
(a never-terminated stream) makes the result read fail with the
result-too-large error. -/
theorem c1_result_read_capped_witness :
    readResult ⟨fun _ => 1, MAX_RESULT_SIZE⟩ 0 = .error (.plugin resultTooLargeMsg) :=
  (c1_result_read_capped ⟨fun _ => 1, MAX_RESULT_SIZE⟩ 0).2
    (fun _ _ => Nat.one_ne_zero) (by simp)

/- ==========================================================================
The guest module, plugin instance and `call_function`
(src-tauri/src/plugins/mod.rs lines 169-373).

A compiled guest module is embedded as an oracle describing every way the
host can observe it through wasmtime: whether instantiation succeeds,
whether it exports a linear memory named "memory", whether it exports a
typed allocator `alloc : (u32) -> u32`, the allocator's behaviour, which
function names resolve as typed exports `(u32) -> u32`, and the guest
code's behaviour when such an export is invoked (it may mutate the fresh
linear memory and returns a result pointer, or traps).  The host logic of
`call_function` is translated around those oracles.
========================================================================== -/

/-- Struct `PluginMetadata` (mod.rs lines 27-36).  `FrontendConfig` carries data
the plugin host never inspects; its fields are embedded structurally. -/
structure FrontendConfig where
  entry : String
  components : List String
  styles : List String
deriving DecidableEq, Repr

structure PluginMetadata where
  name : String
  version : String
  author : String
  description : String
  adapter_type : Option String
  capabilities : List String
  frontend : Option FrontendConfig
deriving DecidableEq, Repr

/-- A compiled WebAssembly guest module, as observable by the host via
wasmtime (see the block comment above). -/
structure GuestModule where
  instantiateErr : Option String
  hasMemory : Bool
  initMem : Memory
  hasAlloc : Bool
  allocFn : Memory → Nat → Option (Memory × Nat)
  exportsFn : String → Bool
  runFn : String → Nat → Memory → Option (Memory × Nat)

/-- Struct `WasmPlugin` (mod.rs lines 174-178): the immutable loaded state of a
plugin — its metadata and its compiled module.  It holds no Store and no
memory; those are created afresh inside `call_function`. -/
structure WasmPlugin where
  metadata : PluginMetadata
  module : GuestModule

/-- The input-pointer step of `call_function` (mod.rs lines 239-253): use
the guest's typed `alloc` export when it exists (a trap inside the
allocator is an allocation failure), otherwise fall back to the fixed
offset 1024. -/
def resolveInputPtr (mod : GuestModule) (mem : Memory) (size : Nat) :
    Except AppError (Memory × Nat) :=
  if mod.hasAlloc then
    match mod.allocFn mem size with
    | some (mem1, ptr) => .ok (mem1, ptr)
    | none => .error (.plugin "Failed to allocate memory")
  else
    .ok (mem, 1024)

/-- Embeds `call_function` (mod.rs lines 200-320).  Each call builds a fresh
Store/instance: the starting linear memory is the module's own initial
memory, never state from an earlier call.  The trailing best-effort
`free_string` call (lines 313-316) cannot change the already-extracted
result bytes and its failure is discarded, so it does not appear in the
returned value. -/
def callFunction (p : WasmPlugin) (functionName : String) (params : List Nat) :
    Except AppError (List Nat) :=
  match p.module.instantiateErr with
  | some e => .error (.plugin ("Failed to instantiate WASM module: " ++ e))
  | none =>
    if p.module.hasMemory then
      match resolveInputPtr p.module p.module.initMem params.length with
      | .error e => .error e
      | .ok (mem1, inputPtr) =>
        match mem1.write inputPtr params with
        | .error _ => .error (.plugin "Failed to write to WASM memory")
        | .ok mem2 =>
          match mem2.write (inputPtr + params.length) [0] with
          | .error _ => .error (.plugin "Failed to write null terminator")
          | .ok mem3 =>
            if p.module.exportsFn functionName then
              match p.module.runFn functionName inputPtr mem3 with
              | none => .error (.plugin "Failed to call WASM function")
              | some (mem4, resultPtr) => readResult mem4 resultPtr
            else
              .error (.plugin ("Function '" ++ functionName ++ "' not found"))
    else
      .error (.plugin "WASM module does not export memory")

/-- A `serde_json::Value` payload.  The plugin host never inspects the
payload's contents (it only serializes it through an oracle), so JSON
numbers are embedded as integers; nothing in any claim depends on the
numeric representation. -/
inductive Json where
  | null
  | bool (b : Bool)
  | num (n : Int)
  | str (s : String)
  | arr (xs : List Json)
  | obj (fields : List (String × Json))

/-- Enum `AuthConfig` (src-tauri/src/adapters/mod.rs lines 88-121). -/
inductive AuthConfig where
  | noAuth
  | bearer (token : String)
  | oauth2ClientCredentials (client_id client_secret token_url : String) (scope : Option String)
  | oauth2AuthorizationCode (client_id client_secret authorization_url token_url redirect_uri : String)
      (scope : Option String)
  | basic (username password : String)
  | apiKey (header_name key : String)
  | gitlabToken (token : String)
deriving DecidableEq, Repr

/-- Struct `AdapterConfig` (src-tauri/src/adapters/mod.rs lines 45-66): the single
payload type passed to every plugin call. -/
structure AdapterConfig where
  adapter_type : String
  source : String
  endpoint : String
  auth : Option AuthConfig
  parameters : Json
  polling_interval : Option Nat
  enabled : Bool

/-- Struct `RecordMetadata` (src-tauri/src/db.rs lines 34-39). -/
structure RecordMetadata where
  tags : List String
  status : Option String
  title : Option String
  description : Option String
deriving DecidableEq, Repr

/-- Struct `StagedRecord` (src-tauri/src/db.rs lines 23-31).  The database id and
the UTC timestamp are opaque to the plugin host and embedded as strings. -/
structure StagedRecord where
  id : Option String
  record_type : String
  source : String
  timestamp : String
  data : Json
  metadata : RecordMetadata

/-- The serde_json library calls made by `fetch` / `test_connection`
(mod.rs lines 339-347): serialization of the config and deserialization
of the fetched records are outside this repository, so they are oracle
parameters quantified over in every theorem. -/
structure SerdeOracles where
  serializeConfig : AdapterConfig → Except String (List Nat)
  deserializeRecords : List Nat → Except String (List StagedRecord)

/-- Embeds `WasmPlugin::fetch` (mod.rs lines 335-351). -/
def fetch (o : SerdeOracles) (p : WasmPlugin) (config : AdapterConfig) :
    Except AppError (List StagedRecord) :=
  match o.serializeConfig config with
  | .error e => .error (.plugin ("Failed to serialize config: " ++ e))
  | .ok configJson =>
    match callFunction p "plugin_fetch" configJson with
    | .error e => .error e
    | .ok result =>
      match o.deserializeRecords result with
      | .error e => .error (.plugin ("Failed to deserialize plugin result: " ++ e))
      | .ok records => .ok records

/-- Embeds `WasmPlugin::test_connection` (mod.rs lines 353-367). -/
def testConnection (o : SerdeOracles) (p : WasmPlugin) (config : AdapterConfig) :
    Except AppError Bool :=
  match o.serializeConfig config with
  | .error e => .error (.plugin ("Failed to serialize config: " ++ e))
  | .ok configJson =>
    match callFunction p "plugin_test_connection" configJson with
    | .error e => .error e
    | .ok result => .ok (!result.isEmpty)

/-- One invocation of a plugin's public call surface. -/
inductive PluginCall where
  | fetchCall (config : AdapterConfig)
  | testCall (config : AdapterConfig)

/-- The outcome of one such invocation. -/
inductive CallResult where
  | fetched (r : Except AppError (List StagedRecord))
  | tested (r : Except AppError Bool)

/-- Running one call against a plugin instance.  Both operations take the
instance by shared reference (`&self`) and build all per-call state (the
Store, the instance, the linear memory) locally inside `call_function`,
so the instance value after the call is the instance value before it. -/
def runCall (o : SerdeOracles) (p : WasmPlugin) (c : PluginCall) :
    CallResult × WasmPlugin :=
  match c with
  | .fetchCall config => (.fetched (fetch o p config), p)
  | .testCall config => (.tested (testConnection o p config), p)

/-- Running a sequence of calls against the same loaded plugin instance,
threading the instance state from call to call. -/
def runCalls (o : SerdeOracles) (p : WasmPlugin) : List PluginCall → List CallResult
  | [] => []
  | c :: rest =>
    let step := runCall o p c
    step.1 :: runCalls o step.2 rest

/-- Claim C3: every call to a plugin's public operations runs in a fresh,
isolated execution context.  In the source the Store, the instance and
the linear memory are all constructed inside `call_function` from the
immutable engine and module alone (`&self`), so a sequence of calls on
one loaded instance behaves exactly like independent calls on the
original instance: no state from an earlier call is visible to a later
one, and the instance value is unchanged by every call. -/
theorem c3_calls_isolated (o : SerdeOracles) (p : WasmPlugin) (calls : List PluginCall) :
    runCalls o p calls = calls.map (fun c => (runCall o p c).1) ∧
    ∀ c : PluginCall, (runCall o p c).2 = p := by
  constructor
  · induction calls with
    | nil => rfl
    | cons c rest ih =>
      have hsnd : (runCall o p c).2 = p := by cases c <;> rfl
      simp only [runCalls, List.map_cons, hsnd, ih]
  · intro c
    cases c <;> rfl

/-- Claim C6: the input write offset of a guest call is the value returned
by the guest's `alloc : (u32) -> u32` export when that export exists; when
it does not, the loader uses the fixed offset 1024 instead of failing. -/
theorem c6_alloc_else_1024 (mod : GuestModule) (mem : Memory) (size : Nat) :
    (mod.hasAlloc = true → ∀ mem1 ptr, mod.allocFn mem size = some (mem1, ptr) →
      resolveInputPtr mod mem size = .ok (mem1, ptr)) ∧
    (mod.hasAlloc = false → resolveInputPtr mod mem size = .ok (mem, 1024)) := by
  constructor
  · intro ha mem1 ptr hcall
    simp [resolveInputPtr, ha, hcall]
  · intro ha
    simp [resolveInputPtr, ha]

/- Concrete fixtures used by witnesses: a guest memory whose byte 0 is 65
and all further bytes are 0, a module without an allocator export whose
entry functions all return pointer 0 into that memory, and one with an
allocator export returning offset 4096. -/

def tMem : Memory := ⟨fun a => if a = 0 then 65 else 0, 8192⟩

def tMetadata : PluginMetadata :=
  { name := "echo", version := "1.0.0", author := "a", description := "d",
    adapter_type := some "echo", capabilities := [], frontend := none }

def tModule : GuestModule :=
  { instantiateErr := none, hasMemory := true, initMem := tMem,
    hasAlloc := false, allocFn := fun _ _ => none,
    exportsFn := fun _ => true, runFn := fun _ _ _ => some (tMem, 0) }

def tAllocModule : GuestModule :=
  { tModule with hasAlloc := true, allocFn := fun m _ => some (m, 4096) }

def tPlugin : WasmPlugin := { metadata := tMetadata, module := tModule }

def tSerde : SerdeOracles :=
  { serializeConfig := fun _ => .ok [65], deserializeRecords := fun _ => .error "x" }

def tConfig : AdapterConfig :=
  { adapter_type := "echo", source := "t", endpoint := "http://x",
    auth := none, parameters := .obj [], polling_interval := none, enabled := true }

/-- Witness for C6: with an allocator export the offset is the allocator's
value (here 4096); without one it is 1024. -/
theorem c6_alloc_else_1024_witness :
    resolveInputPtr tAllocModule tMem 7 = .ok (tMem, 4096) ∧
    resolveInputPtr tModule tMem 7 = .ok (tMem, 1024) :=
  ⟨(c6_alloc_else_1024 tAllocModule tMem 7).1 rfl tMem 4096 rfl,
   (c6_alloc_else_1024 tModule tMem 7).2 rfl⟩

/-- Splitting off one leading byte of a byte-range read. -/
theorem bytes_eq_cons (m : Memory) (o l : Nat) :
    m.bytes o (l + 1) = m.data o :: m.bytes (o + 1) l := by
  simp only [Memory.bytes, List.range_succ_eq_map, List.map_cons, List.map_map, Nat.add_zero]
  refine congrArg _ (List.map_congr_left fun i _ => ?_)
  simp only [Function.comp_apply]
  exact congrArg m.data (by omega)

/-- Evaluation of the result-read loop on the fixture memory: the first
chunk starts with the byte 65 followed by a NUL, so the result is `[65]`. -/
theorem readResult_tMem : readResult tMem 0 = .ok [65] := by
  have hmin : min (MAX_RESULT_SIZE - ([] : List Nat).length) CHUNK_SIZE = 4096 := by
    norm_num [MAX_RESULT_SIZE, CHUNK_SIZE]
  have hb : tMem.bytes 0 (min (MAX_RESULT_SIZE - ([] : List Nat).length) CHUNK_SIZE)
      = 65 :: 0 :: tMem.bytes 2 4094 := by
    rw [hmin]
    rw [show (4096 : Nat) = 4095 + 1 from rfl, bytes_eq_cons]
    rw [show (4095 : Nat) = 4094 + 1 from rfl, bytes_eq_cons]
    norm_num [tMem]
  rw [readResult, readResultLoop]
  rw [dif_neg (by norm_num [MAX_RESULT_SIZE] : ¬(MAX_RESULT_SIZE - ([] : List Nat).length = 0))]
  rw [if_pos (by rw [hmin]; norm_num [tMem] : 0 + min (MAX_RESULT_SIZE - ([] : List Nat).length) CHUNK_SIZE ≤ tMem.size)]
  rw [hb]
  simp [position0]

/-- Claim C8: `test_connection` succeeds with `true` exactly when the guest
call yields a non-empty byte sequence before the NUL terminator, succeeds
with `false` exactly when that sequence is empty, and propagates
serialization errors and guest-call errors as errors. -/
theorem c8_test_connection_nonempty (o : SerdeOracles) (p : WasmPlugin) (config : AdapterConfig) :
    (∀ e, o.serializeConfig config = .error e →
      testConnection o p config = .error (.plugin ("Failed to serialize config: " ++ e))) ∧
    (∀ bytes, o.serializeConfig config = .ok bytes →
      (∀ e, callFunction p "plugin_test_connection" bytes = .error e →
        testConnection o p config = .error e) ∧
      (∀ r, callFunction p "plugin_test_connection" bytes = .ok r →
        (testConnection o p config = .ok true ↔ r ≠ []) ∧
        (testConnection o p config = .ok false ↔ r = []))) := by
  refine ⟨fun e he => ?_, fun bytes hb => ⟨fun e he => ?_, fun r hr => ?_⟩⟩
  · simp [testConnection, he]
  · simp [testConnection, hb, he]
  · cases r with
    | nil => simp [testConnection, hb, hr]
    | cons x xs => simp [testConnection, hb, hr]

/-- Witness for C8: the fixture guest yields the single byte 65 before the
NUL terminator, so `test_connection` returns `Ok(true)`. -/
theorem c8_test_connection_nonempty_witness :
    testConnection tSerde tPlugin tConfig = .ok true := by
  have hcall : callFunction tPlugin "plugin_test_connection" [65] = .ok [65] :=
    (show callFunction tPlugin "plugin_test_connection" [65] = readResult tMem 0 from rfl).trans
      readResult_tMem
  exact (((c8_test_connection_nonempty tSerde tPlugin tConfig).2 [65] rfl).2 [65] hcall).1.mpr
    (by simp)

/- ==========================================================================
The plugin manager (src-tauri/src/plugins/mod.rs lines 380-639): manifest
model, directory scan, per-package load, adapter-type lookup.

The filesystem visible to one scan is embedded as data: a directory entry
either fails to read (`read_dir` iterator error), is a non-directory
file, or is a package directory carrying the outcome of reading and
parsing its `manifest.json` (reading and parsing are folded into one
package-local parse oracle, since both produce a package-local error) and
the outcome of loading any WASM file inside it by relative path
(`None` when the file does not exist, `some (.error e)` when
`Module::from_file` fails, `some (.ok gm)` on success).
========================================================================== -/

/-- Struct `AdapterInfo` (mod.rs lines 72-78). -/
structure AdapterInfo where
  type_ : String
  name : String
  capabilities : List String
deriving DecidableEq, Repr

/-- Struct `BackendConfig` (mod.rs lines 64-70). -/
structure BackendConfig where
  type_ : String
  entry : String
  adapters : List AdapterInfo
deriving DecidableEq, Repr

/-- Struct `PluginManifest` (mod.rs lines 44-62). -/
structure PluginManifest where
  name : String
  version : String
  author : String
  description : String
  homepage : Option String
  backend : Option BackendConfig
  frontend : Option FrontendConfig
  permissions : List String
  dependencies : List (String × String)
  tags : List String
deriving DecidableEq, Repr

/-- One package directory as the scan observes it. -/
structure PackageDir where
  path : String
  manifestParse : Option (Except String PluginManifest)
  wasmLoad : String → Option (Except String GuestModule)

/-- One entry of the plugin directory as the scan observes it. -/
inductive DirEntry where
  | readErr (msg : String)
  | file (path : String)
  | dir (pkg : PackageDir)

/-- Struct `PluginManager` (mod.rs lines 380-384): backend plugin instances and
all manifests, keyed by plugin name.  The `HashMap`s are embedded as
association lists; insertion replaces any previous binding of the key
(last write wins), and nothing proved below depends on iteration order. -/
structure PluginManager where
  plugins : List (String × WasmPlugin)
  manifests : List (String × PluginManifest)

/-- Embeds `HashMap::insert`: bind `k` to `v`, dropping any previous binding. -/
def insertAssoc {α : Type} (k : String) (v : α) (l : List (String × α)) :
    List (String × α) :=
  (k, v) :: l.filter (fun kv => kv.1 != k)

/-- The `PluginMetadata` built from a manifest and its backend section
(mod.rs lines 486-498): only the FIRST declared adapter contributes the
adapter type and the capabilities. -/
def metadataOfManifest (manifest : PluginManifest) (backend : BackendConfig) :
    PluginMetadata :=
  { name := manifest.name, version := manifest.version, author := manifest.author,
    description := manifest.description,
    adapter_type := backend.adapters.head?.map (·.type_),
    capabilities := (backend.adapters.head?.map (·.capabilities)).getD [],
    frontend := manifest.frontend }

/-- Embeds `PluginManager::load_plugin` (mod.rs lines 449-525).  It takes
`&mut self`: the manifest insertion at step 2 persists even when a later
step fails, so the embedded function returns the updated manager next to
the outcome.  `validate_permissions` (lines 528-537) only logs and always
succeeds.  A manifest without a backend — frontend-only or otherwise —
returns `Ok(())` without registering an instance. -/
def loadPlugin (mgr : PluginManager) (pkg : PackageDir) :
    PluginManager × Except AppError Unit :=
  match pkg.manifestParse with
  | none => (mgr, .error (.plugin ("No manifest.json found in " ++ pkg.path)))
  | some (.error e) => (mgr, .error (.plugin ("Failed to parse manifest: " ++ e)))
  | some (.ok manifest) =>
    let mgr1 : PluginManager :=
      { mgr with manifests := insertAssoc manifest.name manifest mgr.manifests }
    match manifest.backend with
    | some backend =>
      if backend.type_ = "wasm" then
        match pkg.wasmLoad backend.entry with
        | none => (mgr1, .error (.plugin ("WASM file not found: " ++ backend.entry)))
        | some (.error e) => (mgr1, .error (.plugin ("Failed to load WASM module: " ++ e)))
        | some (.ok gm) =>
          ({ mgr1 with
             plugins := insertAssoc manifest.name
               { metadata := metadataOfManifest manifest backend, module := gm }
               mgr1.plugins },
           .ok ())
      else
        (mgr1, .error (.plugin ("Unsupported backend type: " ++ backend.type_)))
    | none => (mgr1, .ok ())

/-- The scan loop of `load_plugins` (mod.rs lines 419-438): an entry-read
failure aborts the whole scan (the `?` at line 421); a non-directory
entry is skipped; a package failure is logged and skipped, with the
partially-updated manager carried forward; a package success increments
the count. -/
def loadPluginsLoop (mgr : PluginManager) :
    List DirEntry → Nat → PluginManager × Except AppError Nat
  | [], count => (mgr, .ok count)
  | .readErr e :: _, _ => (mgr, .error (.plugin ("Failed to read entry: " ++ e)))
  | .file _ :: rest, count => loadPluginsLoop mgr rest count
  | .dir pkg :: rest, count =>
    match loadPlugin mgr pkg with
    | (mgr1, .ok _) => loadPluginsLoop mgr1 rest (count + 1)
    | (mgr1, .error _) => loadPluginsLoop mgr1 rest count

/-- Embeds `PluginManager::load_plugins` (mod.rs lines 397-446): when the plugin
directory is missing it is created and the scan reports zero plugins;
otherwise the entries are scanned with a count starting at zero. -/
def loadPlugins (mgr : PluginManager) (dirExists createDirOk : Bool)
    (entries : List DirEntry) : PluginManager × Except AppError Nat :=
  if dirExists then
    loadPluginsLoop mgr entries 0
  else if createDirOk then
    (mgr, .ok 0)
  else
    (mgr, .error (.plugin "Failed to create plugin directory"))

/-- Embeds `PluginManager::get_plugin_by_adapter_type` (mod.rs lines 599-616):
first loaded instance whose recorded metadata adapter type equals the
requested one. -/
def getPluginByAdapterType (mgr : PluginManager) (adapterType : String) :
    Option WasmPlugin :=
  (mgr.plugins.find? (fun kv => kv.2.metadata.adapter_type == some adapterType)).map (·.2)

/- Specification-side helpers used to state the scan theorems: whether a
package loads successfully, whether it yields a new instance, and the
manager evolution over a scan. -/

/-- Whether `load_plugin` on this package would succeed (outcome is
independent of the manager state; proved below). -/
def pkgLoadOk (pkg : PackageDir) : Bool :=
  match pkg.manifestParse with
  | some (.ok manifest) =>
    match manifest.backend with
    | some backend =>
      if backend.type_ = "wasm" then
        match pkg.wasmLoad backend.entry with
        | some (.ok _) => true
        | _ => false
      else false
    | none => true
  | _ => false

/-- The plugin instance a package load would register, if any. -/
def pkgNewPlugin (pkg : PackageDir) : Option (String × WasmPlugin) :=
  match pkg.manifestParse with
  | some (.ok manifest) =>
    match manifest.backend with
    | some backend =>
      if backend.type_ = "wasm" then
        match pkg.wasmLoad backend.entry with
        | some (.ok gm) =>
          some (manifest.name, { metadata := metadataOfManifest manifest backend, module := gm })
        | _ => none
      else none
    | none => none
  | _ => none

def isReadErr : DirEntry → Bool
  | .readErr _ => true
  | _ => false

/-- Whether a scan entry contributes to the returned count. -/
def entryLoads : DirEntry → Bool
  | .dir pkg => pkgLoadOk pkg
  | _ => false

def goodCount (es : List DirEntry) : Nat := (es.filter entryLoads).length

def loadOutcomeOk : Except AppError Unit → Bool
  | .ok _ => true
  | .error _ => false

/-- The manager state evolution of one scan entry. -/
def scanStep (mgr : PluginManager) (e : DirEntry) : PluginManager :=
  match e with
  | .dir pkg => (loadPlugin mgr pkg).1
  | _ => mgr

def scanMgr (mgr : PluginManager) (es : List DirEntry) : PluginManager :=
  es.foldl scanStep mgr

/-- The instance-table evolution of one scan entry. -/
def pluginsStep (ps : List (String × WasmPlugin)) (e : DirEntry) :
    List (String × WasmPlugin) :=
  match e with
  | .dir pkg =>
    match pkgNewPlugin pkg with
    | some (n, p) => insertAssoc n p ps
    | none => ps
  | _ => ps

def pluginsAfter (ps : List (String × WasmPlugin)) (es : List DirEntry) :
    List (String × WasmPlugin) :=
  es.foldl pluginsStep ps

/-- The success of a package load does not depend on the manager state. -/
theorem loadPlugin_outcome (mgr : PluginManager) (pkg : PackageDir) :
    loadOutcomeOk (loadPlugin mgr pkg).2 = pkgLoadOk pkg := by
  rcases pkg with ⟨path, mp, wl⟩
  cases mp with
  | none => rfl
  | some r =>
    cases r with
    | error e => rfl
    | ok manifest =>
      cases hb : manifest.backend with
      | none => simp [loadPlugin, pkgLoadOk, hb, loadOutcomeOk]
      | some backend =>
        by_cases ht : backend.type_ = "wasm"
        · cases hw : wl backend.entry with
          | none => simp [loadPlugin, pkgLoadOk, hb, ht, hw, loadOutcomeOk]
          | some r2 =>
            cases r2 <;> simp [loadPlugin, pkgLoadOk, hb, ht, hw, loadOutcomeOk]
        · simp [loadPlugin, pkgLoadOk, hb, ht, loadOutcomeOk]

/-- The instance table after a package load: extended by exactly the
instance the package yields, when it yields one. -/
theorem loadPlugin_plugins (mgr : PluginManager) (pkg : PackageDir) :
    (loadPlugin mgr pkg).1.plugins =
      match pkgNewPlugin pkg with
      | some (n, p) => insertAssoc n p mgr.plugins
      | none => mgr.plugins := by
  rcases pkg with ⟨path, mp, wl⟩
  cases mp with
  | none => rfl
  | some r =>
    cases r with
    | error e => rfl
    | ok manifest =>
      cases hb : manifest.backend with
      | none => simp [loadPlugin, pkgNewPlugin, hb]
      | some backend =>
        by_cases ht : backend.type_ = "wasm"
        · cases hw : wl backend.entry with
          | none => simp [loadPlugin, pkgNewPlugin, hb, ht, hw]
          | some r2 =>
            cases r2 <;> simp [loadPlugin, pkgNewPlugin, hb, ht, hw]
        · simp [loadPlugin, pkgNewPlugin, hb, ht]

/-- A package that fails to load yields no instance. -/
theorem pkgNewPlugin_eq_none (pkg : PackageDir) (h : pkgLoadOk pkg = false) :
    pkgNewPlugin pkg = none := by
  rcases pkg with ⟨path, mp, wl⟩
  cases mp with
  | none => rfl
  | some r =>
    cases r with
    | error e => rfl
    | ok manifest =>
      cases hb : manifest.backend with
      | none => simp [pkgLoadOk, hb] at h
      | some backend =>
        by_cases ht : backend.type_ = "wasm"
        · cases hw : wl backend.entry with
          | none => simp [pkgNewPlugin, hb, ht, hw]
          | some r2 =>
            cases r2 with
            | error e2 => simp [pkgNewPlugin, hb, ht, hw]
            | ok gm => simp [pkgLoadOk, hb, ht, hw] at h
        · simp [pkgNewPlugin, hb, ht]

/-- The scan loop on a read-error-free entry list: the final manager is the
fold of the per-entry evolution and the returned count adds the number of
successfully loading entries to the running count. -/
theorem loadPluginsLoop_spec (es : List DirEntry) :
    ∀ (mgr : PluginManager) (n : Nat), (∀ e ∈ es, isReadErr e = false) →
      loadPluginsLoop mgr es n = (scanMgr mgr es, .ok (n + goodCount es)) := by
  induction es with
  | nil =>
    intro mgr n _
    simp [loadPluginsLoop, scanMgr, goodCount]
  | cons e rest ih =>
    intro mgr n h
    have hrest : ∀ e2 ∈ rest, isReadErr e2 = false :=
      fun e2 he2 => h e2 (List.mem_cons_of_mem _ he2)
    cases e with
    | readErr msg =>
      exact absurd (h _ (List.mem_cons_self _ _)) (by simp [isReadErr])
    | file p =>
      simp only [loadPluginsLoop, ih _ _ hrest, scanMgr, List.foldl_cons, scanStep]
      simp [goodCount, entryLoads]
    | dir pkg =>
      have houtcome := loadPlugin_outcome mgr pkg
      cases hl : loadPlugin mgr pkg with
      | mk mgr1 r =>
        rw [hl] at houtcome
        cases r with
        | ok u =>
          have hgood : pkgLoadOk pkg = true := by
            rw [← houtcome]; rfl
          have hgc : goodCount (DirEntry.dir pkg :: rest) = goodCount rest + 1 := by
            simp [goodCount, List.filter_cons, entryLoads, hgood]
          simp only [loadPluginsLoop, hl, ih _ _ hrest, scanMgr, List.foldl_cons, scanStep, hgc]
          exact congrArg _ (congrArg _ (by omega))
        | error err =>
          have hbad : pkgLoadOk pkg = false := by
            rw [← houtcome]; rfl
          simp only [loadPluginsLoop, hl, ih _ _ hrest, scanMgr, List.foldl_cons, scanStep, hl]
          simp [goodCount, List.filter_cons, entryLoads, hbad]

/-- The instance table after a scan depends only on the starting instance
table and the entries. -/
theorem scanMgr_plugins (es : List DirEntry) :
    ∀ mgr : PluginManager, (scanMgr mgr es).plugins = pluginsAfter mgr.plugins es := by
  induction es with
  | nil => intro mgr; rfl
  | cons e rest ih =>
    intro mgr
    cases e with
    | readErr msg => exact ih mgr
    | file p => exact ih mgr
    | dir pkg =>
      show (scanMgr (scanStep mgr (.dir pkg)) rest).plugins
          = pluginsAfter (pluginsStep mgr.plugins (.dir pkg)) rest
      rw [ih (scanStep mgr (.dir pkg))]
      refine congrArg (fun ps => pluginsAfter ps rest) ?_
      show (loadPlugin mgr pkg).1.plugins = pluginsStep mgr.plugins (.dir pkg)
      rw [loadPlugin_plugins]
      rfl

/- Fixture packages for the scan claims. -/

def emptyMgr : PluginManager := { plugins := [], manifests := [] }

def frontendOnlyManifest : PluginManifest :=
  { name := "fo", version := "1.0.0", author := "a", description := "d",
    homepage := none, backend := none,
    frontend := some { entry := "main.js", components := [], styles := [] },
    permissions := [], dependencies := [], tags := [] }

def frontendOnlyPkg : PackageDir :=
  { path := "plugins/frontend-only",
    manifestParse := some (.ok frontendOnlyManifest),
    wasmLoad := fun _ => none }

def echoBackend : BackendConfig :=
  { type_ := "wasm", entry := "echo.wasm",
    adapters := [{ type_ := "echo", name := "Echo", capabilities := [] }] }

def echoManifest : PluginManifest :=
  { name := "echo", version := "1.0.0", author := "a", description := "d",
    homepage := none, backend := some echoBackend, frontend := none,
    permissions := [], dependencies := [], tags := [] }

def echoPkg : PackageDir :=
  { path := "plugins/echo",
    manifestParse := some (.ok echoManifest),
    wasmLoad := fun _ => some (.ok tModule) }

def echo2Manifest : PluginManifest := { echoManifest with name := "echo2" }

def echo2Pkg : PackageDir := { echoPkg with manifestParse := some (.ok echo2Manifest) }

def badPkg : PackageDir :=
  { path := "plugins/broken",
    manifestParse := some (.error "expected value at line 1 column 1"),
    wasmLoad := fun _ => none }

def nativeBackend : BackendConfig :=
  { type_ := "native", entry := "plugin.so",
    adapters := [{ type_ := "x", name := "X", capabilities := [] }] }

def nativeManifest : PluginManifest :=
  { echoManifest with name := "nat-plugin", backend := some nativeBackend }

def nativePkg : PackageDir :=
  { path := "plugins/native-plugin",
    manifestParse := some (.ok nativeManifest),
    wasmLoad := fun _ => some (.ok tModule) }

/-- Counterexample to claim C4 as stated: one package whose manifest has a
frontend section and no backend.  `load_plugins` returns a count of 1,
yet no WASM backend instance was created (the instance table stays
empty), so the returned count is not the number of backend-bearing
plugins and metadata-only packages do contribute to it. -/
theorem c4_count_counterexample :
    (loadPlugins emptyMgr true true [.dir frontendOnlyPkg]).2 = .ok 1 ∧
    (loadPlugins emptyMgr true true [.dir frontendOnlyPkg]).1.plugins = [] :=
  ⟨rfl, rfl⟩

/-- Claim C4, amended: on a scan without entry-read failures,
`load_plugins` returns the number of directory entries whose
`load_plugin` succeeds — which includes metadata-only (frontend-only, or
backend-less and frontend-less) packages, not only packages for which a
WASM backend instance was created. -/
theorem c4_count_successful_loads (mgr : PluginManager) (entries : List DirEntry)
    (hnoerr : ∀ e ∈ entries, isReadErr e = false) :
    (loadPlugins mgr true true entries).2 = .ok (goodCount entries) := by
  have h := loadPluginsLoop_spec entries mgr 0 hnoerr
  simp [loadPlugins, h]

/-- Witness for the amended C4: a frontend-only package and a WASM package
together produce a count of 2 — the metadata-only package counts. -/
theorem c4_count_successful_loads_witness :
    (loadPlugins emptyMgr true true [.dir frontendOnlyPkg, .dir echoPkg]).2 = .ok 2 :=
  c4_count_successful_loads emptyMgr [.dir frontendOnlyPkg, .dir echoPkg]
    (by simp [isReadErr])

/-- Claim C5: a package that fails to load is contained to that package —
the scan continues, the count is the number of successfully loading
entries among the rest, and the resulting instance table is the same as
if the failing package had not been there. -/
theorem c5_failure_contained (mgr : PluginManager) (es1 es2 : List DirEntry)
    (bad : PackageDir)
    (h1 : ∀ e ∈ es1, isReadErr e = false) (h2 : ∀ e ∈ es2, isReadErr e = false)
    (hbad : pkgLoadOk bad = false) :
    (loadPlugins mgr true true (es1 ++ .dir bad :: es2)).2 =
      .ok (goodCount es1 + goodCount es2) ∧
    (loadPlugins mgr true true (es1 ++ .dir bad :: es2)).1.plugins =
      (loadPlugins mgr true true (es1 ++ es2)).1.plugins := by
  have hall : ∀ e ∈ es1 ++ DirEntry.dir bad :: es2, isReadErr e = false := by
    intro e he
    rcases List.mem_append.mp he with h | h
    · exact h1 e h
    rcases List.mem_cons.mp h with rfl | h
    · rfl
    · exact h2 e h
  have hall2 : ∀ e ∈ es1 ++ es2, isReadErr e = false := by
    intro e he
    rcases List.mem_append.mp he with h | h
    · exact h1 e h
    · exact h2 e h
  have hspec := loadPluginsLoop_spec (es1 ++ DirEntry.dir bad :: es2) mgr 0 hall
  have hspec2 := loadPluginsLoop_spec (es1 ++ es2) mgr 0 hall2
  have hgcbad : goodCount (es1 ++ DirEntry.dir bad :: es2) = goodCount es1 + goodCount es2 := by
    simp [goodCount, List.filter_append, List.filter_cons, entryLoads, hbad]
  constructor
  · simp [loadPlugins, hspec, hgcbad]
  · simp only [loadPlugins, if_pos, hspec, hspec2]
    rw [scanMgr_plugins, scanMgr_plugins]
    show pluginsAfter mgr.plugins (es1 ++ DirEntry.dir bad :: es2)
        = pluginsAfter mgr.plugins (es1 ++ es2)
    simp only [pluginsAfter, List.foldl_append, List.foldl_cons]
    refine congrArg (fun ps => List.foldl pluginsStep ps es2) ?_
    show pluginsStep (List.foldl pluginsStep mgr.plugins es1) (.dir bad)
        = List.foldl pluginsStep mgr.plugins es1
    simp [pluginsStep, pkgNewPlugin_eq_none bad hbad]

/-- Witness for C5: three packages, the middle one with a malformed
manifest — the scan returns 2 and registers the same instances as a scan
of the two good packages alone. -/
theorem c5_failure_contained_witness :
    (loadPlugins emptyMgr true true [.dir echoPkg, .dir badPkg, .dir echo2Pkg]).2 = .ok 2 ∧
    (loadPlugins emptyMgr true true [.dir echoPkg, .dir badPkg, .dir echo2Pkg]).1.plugins =
      (loadPlugins emptyMgr true true [.dir echoPkg, .dir echo2Pkg]).1.plugins :=
  c5_failure_contained emptyMgr [.dir echoPkg] [.dir echo2Pkg] badPkg
    (by simp [isReadErr]) (by simp [isReadErr]) rfl

/-- Claim C7: a manifest declaring a backend whose type tag is not "wasm"
fails that package's load with the unsupported-backend-type error naming
the offending type, and registers no plugin instance for it. -/
theorem c7_unsupported_backend_type (mgr : PluginManager) (pkg : PackageDir)
    (manifest : PluginManifest) (backend : BackendConfig)
    (hm : pkg.manifestParse = some (.ok manifest))
    (hb : manifest.backend = some backend)
    (ht : backend.type_ ≠ "wasm") :
    (loadPlugin mgr pkg).2 = .error (.plugin ("Unsupported backend type: " ++ backend.type_)) ∧
    (loadPlugin mgr pkg).1.plugins = mgr.plugins := by
  constructor <;> simp [loadPlugin, hm, hb, ht]

/-- Witness for C7: a package declaring backend type "native" fails with
the specific error and leaves the instance table empty. -/
theorem c7_unsupported_backend_type_witness :
    (loadPlugin emptyMgr nativePkg).2 = .error (.plugin "Unsupported backend type: native") ∧
    (loadPlugin emptyMgr nativePkg).1.plugins = [] :=
  c7_unsupported_backend_type emptyMgr nativePkg nativeManifest nativeBackend
    rfl rfl (by decide)

def twoBackend : BackendConfig :=
  { type_ := "wasm", entry := "two.wasm",
    adapters := [{ type_ := "alpha", name := "A", capabilities := [] },
                 { type_ := "beta", name := "B", capabilities := [] }] }

def twoManifest : PluginManifest :=
  { echoManifest with name := "two", backend := some twoBackend }

def twoPkg : PackageDir :=
  { path := "plugins/two",
    manifestParse := some (.ok twoManifest),
    wasmLoad := fun _ => some (.ok tModule) }

def twoPlugin : WasmPlugin :=
  { metadata := metadataOfManifest twoManifest twoBackend, module := tModule }

/-- Claim C9: a successfully loaded backend package is registered with the
type of the FIRST adapter of its manifest's adapter list as its recorded
adapter type, and `get_plugin_by_adapter_type` matches only that recorded
type — so whenever no loaded plugin records `t` as its first adapter
type, the lookup for `t` returns nothing, even if some plugin declares
`t` as a second or later adapter. -/
theorem c9_first_adapter_lookup :
    (∀ (mgr : PluginManager) (pkg : PackageDir) (manifest : PluginManifest)
        (backend : BackendConfig) (gm : GuestModule),
      pkg.manifestParse = some (.ok manifest) →
      manifest.backend = some backend →
      backend.type_ = "wasm" →
      pkg.wasmLoad backend.entry = some (.ok gm) →
      List.lookup manifest.name (loadPlugin mgr pkg).1.plugins =
        some { metadata := metadataOfManifest manifest backend, module := gm } ∧
      (metadataOfManifest manifest backend).adapter_type =
        backend.adapters.head?.map (·.type_)) ∧
    (∀ (mgr : PluginManager) (t : String),
      (∀ kv ∈ mgr.plugins, kv.2.metadata.adapter_type ≠ some t) →
      getPluginByAdapterType mgr t = none) := by
  constructor
  · intro mgr pkg manifest backend gm hm hb ht hw
    refine ⟨?_, rfl⟩
    simp [loadPlugin, hm, hb, ht, hw, insertAssoc, List.lookup]
  · intro mgr t h
    have hfind : mgr.plugins.find?
        (fun kv => kv.2.metadata.adapter_type == some t) = none := by
      rw [List.find?_eq_none]
      intro kv hkv
      simpa using h kv hkv
    simp [getPluginByAdapterType, hfind]

/-- Witness for C9: a plugin declaring adapters ["alpha", "beta"] is
registered under adapter type "alpha" only; looking up "beta" on the
manager that holds it returns nothing. -/
theorem c9_first_adapter_lookup_witness :
    List.lookup "two" (loadPlugin emptyMgr twoPkg).1.plugins = some twoPlugin ∧
    twoPlugin.metadata.adapter_type = some "alpha" ∧
    getPluginByAdapterType (loadPlugin emptyMgr twoPkg).1 "beta" = none := by
  refine ⟨(c9_first_adapter_lookup.1 emptyMgr twoPkg twoManifest twoBackend tModule
      rfl rfl rfl rfl).1, rfl, ?_⟩
  apply c9_first_adapter_lookup.2
  intro kv hkv
  have hpl : (loadPlugin emptyMgr twoPkg).1.plugins = [("two", twoPlugin)] := rfl
  rw [hpl] at hkv
  have hkv2 : kv = ("two", twoPlugin) := by simpa using hkv
  rw [hkv2]
  decide

/- ==========================================================================
The HTTP capability provider (src-tauri/src/plugins/http.rs).

The host functions `http.request` and `http.get` are embedded as total
functions over: the caller's observable guest environment (memory export,
memory contents, `alloc` export and its typedness and behaviour) and a
set of oracles for the library calls outside this repository —
`String::from_utf8` (UTF-8 decoding), `str::as_bytes` (UTF-8 encoding),
`serde_json::from_str::<HashMap<String, String>>` (header-map parsing),
and the whole reqwest transport including response serialization
(`request.send()`, `response.text()`, `serde_json::to_string`), folded
into one `send` oracle returning either the response JSON string or an
error.  i32 values are embedded as integers with explicit wrapping where
the Rust code casts.

The read helpers `read_string_from_memory` / `read_bytes_from_memory`
(http.rs lines 231-252) allocate `vec![0u8; len]` with the
guest-supplied, sign-extended length BEFORE the bounds-checked
`memory.read`.  A length above `isize::MAX` therefore deterministically
panics with a capacity overflow inside the host function instead of
reaching the bounds check, so the host functions are embedded with an
outcome type distinguishing a returned i32 from a Rust panic.  (For
lengths representable in a `Layout` the allocation itself may still
exhaust the allocator and abort; whether a multi-gigabyte zeroed buffer
can be allocated is environment-dependent, so the embedding models only
the deterministic capacity-overflow panic and treats representable
allocations as succeeding.)
========================================================================== -/

/-- Constant `isize::MAX` on a 64-bit platform: the largest byte count a
`Layout`, and hence a `vec![0u8; len]` allocation, can represent. -/
def isizeMax : Nat := 9223372036854775807

/-- Wrap an integer into i32 range (`as i32` semantics). -/
def i32wrap (i : Int) : Int :=
  let r := i % 4294967296
  if r < 2147483648 then r else r - 4294967296

/-- Embeds `usize::len() as i32` on a byte count. -/
def i32ofNat (n : Nat) : Int := i32wrap n

/-- Embeds `i32 as usize` on a 64-bit platform: sign-extend, then reinterpret. -/
def usizeOfInt (i : Int) : Nat := (i % 18446744073709551616).toNat

/-- Embeds `(result_ptr as u32).to_le_bytes()`. -/
def u32leBytes (i : Int) : List Nat :=
  let u := (i % 4294967296).toNat
  [u % 256, u / 256 % 256, u / 65536 % 256, u / 16777216 % 256]

/-- Oracles for the library behaviour used by the HTTP host functions (see
the block comment above). -/
structure HostOracles where
  utf8Decode : List Nat → Option String
  utf8Encode : String → List Nat
  parseHeaderMap : String → Option (List (String × String))
  send : String → String → List (String × String) → Option (List Nat) → Except String String

/-- The guest environment observable by a host function through its
`Caller`: the "memory" export, the memory contents, the "alloc" export,
whether that export has type `(i32) -> i32`, and the allocator's
behaviour (it runs guest code: it may mutate memory, and may trap). -/
structure HttpCaller where
  hasMemory : Bool
  mem : Memory
  hasAllocExport : Bool
  allocTyped : Bool
  allocFn : Memory → Int → Option (Memory × Int)

/-- Outcome of a fallible host-side helper: a value, a recoverable error
(which the calling host function maps to the -1 sentinel), or a Rust
panic unwinding out of the helper. -/
inductive HostStep (α : Type) where
  | ok (a : α)
  | err
  | panic (msg : String)
deriving DecidableEq, Repr

/-- Outcome of a host function as observed by the host process: a
returned i32, or a Rust panic escaping the host function. -/
inductive HostOutcome where
  | ret (value : Int)
  | panic (msg : String)
deriving DecidableEq, Repr

/-- Embeds `read_string_from_memory` (http.rs lines 231-240): first the
unconditional `vec![0u8; len]` buffer allocation with the guest-supplied
length — a capacity-overflow panic when the length exceeds `isize::MAX`
— then the bounds-checked `memory.read` and the UTF-8 decode, either of
which fails recoverably. -/
def readStringFromMemory (o : HostOracles) (m : Memory) (ptr len : Int) : HostStep String :=
  if usizeOfInt len > isizeMax then .panic "capacity overflow"
  else
    match m.read (usizeOfInt ptr) (usizeOfInt len) with
    | .error _ => .err
    | .ok bytes =>
      match o.utf8Decode bytes with
      | some s => .ok s
      | none => .err

/-- Embeds `read_bytes_from_memory` (http.rs lines 243-252): the same
pre-bounds-check `vec![0u8; len]` allocation, then the bounds-checked
read. -/
def readBytesFromMemory (m : Memory) (ptr len : Int) : HostStep (List Nat) :=
  if usizeOfInt len > isizeMax then .panic "capacity overflow"
  else
    match m.read (usizeOfInt ptr) (usizeOfInt len) with
    | .error _ => .err
    | .ok bytes => .ok bytes

/-- Embeds `make_http_request_sync` (http.rs lines 255-314): reject any method
whose uppercase form is not GET/POST/PUT/DELETE/PATCH; parse the header
JSON into a string-to-string map, silently dropping it when it does not
parse; then run the transport. -/
def makeHttpRequestSync (o : HostOracles) (url method : String)
    (headersJson : Option String) (body : Option (List Nat)) : Except String String :=
  if method.toUpper = "GET" ∨ method.toUpper = "POST" ∨ method.toUpper = "PUT"
      ∨ method.toUpper = "DELETE" ∨ method.toUpper = "PATCH" then
    o.send url method.toUpper
      (match headersJson with
       | some hs =>
         match o.parseHeaderMap hs with
         | some hm => hm
         | none => []
       | none => [])
      body
  else
    .error ("Unsupported HTTP method: " ++ method)

/-- The result-writing tail shared verbatim by `http.request` (http.rs
lines 97-144) and `http.get` (lines 180-223): allocate guest space via
the guest's typed `alloc` export, write the response bytes, the NUL
terminator and the result pointer, and return the response length as
i32; every failure returns -1. -/
def writeResultToGuest (o : HostOracles) (c : HttpCaller) (result : String)
    (resultPtrPtr : Int) : Int :=
  if c.hasAllocExport then
    if c.allocTyped then
      match c.allocFn c.mem (i32wrap (i32ofNat (o.utf8Encode result).length + 1)) with
      | none => -1
      | some (mem1, resultPtr) =>
        match mem1.write (usizeOfInt resultPtr) (o.utf8Encode result) with
        | .error _ => -1
        | .ok mem2 =>
          match mem2.write (usizeOfInt resultPtr + (o.utf8Encode result).length) [0] with
          | .error _ => -1
          | .ok mem3 =>
            match mem3.write (usizeOfInt resultPtrPtr) (u32leBytes resultPtr) with
            | .error _ => -1
            | .ok _ => i32ofNat (o.utf8Encode result).length
    else -1
  else -1

/-- The `http.request` host function (http.rs lines 18-146): every
recoverable failure returns the -1 sentinel; a panic inside a read
helper escapes the host function. -/
def httpRequestHostFn (o : HostOracles) (c : HttpCaller)
    (urlPtr urlLen methodPtr methodLen headersPtr headersLen bodyPtr bodyLen
     resultPtrPtr : Int) : HostOutcome :=
  if c.hasMemory then
    match readStringFromMemory o c.mem urlPtr urlLen with
    | .panic msg => .panic msg
    | .err => .ret (-1)
    | .ok url =>
      match readStringFromMemory o c.mem methodPtr methodLen with
      | .panic msg => .panic msg
      | .err => .ret (-1)
      | .ok method =>
        match (if headersLen > 0 then
                 match readStringFromMemory o c.mem headersPtr headersLen with
                 | .ok s => HostStep.ok (some s)
                 | .err => HostStep.err
                 | .panic msg => HostStep.panic msg
               else HostStep.ok none) with
        | .panic msg => .panic msg
        | .err => .ret (-1)
        | .ok headersJson =>
          match (if bodyLen > 0 then
                   match readBytesFromMemory c.mem bodyPtr bodyLen with
                   | .ok b => HostStep.ok (some b)
                   | .err => HostStep.err
                   | .panic msg => HostStep.panic msg
                 else HostStep.ok none) with
          | .panic msg => .panic msg
          | .err => .ret (-1)
          | .ok body =>
            match makeHttpRequestSync o url method headersJson body with
            | .error _ => .ret (-1)
            | .ok result => .ret (writeResultToGuest o c result resultPtrPtr)
  else .ret (-1)

/-- The `http.get` host function (http.rs lines 149-225). -/
def httpGetHostFn (o : HostOracles) (c : HttpCaller)
    (urlPtr urlLen resultPtrPtr : Int) : HostOutcome :=
  if c.hasMemory then
    match readStringFromMemory o c.mem urlPtr urlLen with
    | .panic msg => .panic msg
    | .err => .ret (-1)
    | .ok url =>
      match makeHttpRequestSync o url "GET" none none with
      | .error _ => .ret (-1)
      | .ok result => .ret (writeResultToGuest o c result resultPtrPtr)
  else .ret (-1)


def hOracles : HostOracles :=
  { utf8Decode := fun _ => some "h", utf8Encode := fun _ => [104],
    parseHeaderMap := fun _ => none, send := fun _ _ _ _ => .ok "resp" }

def hCaller : HttpCaller :=
  { hasMemory := true, mem := ⟨fun _ => 104, 64⟩,
    hasAllocExport := true, allocTyped := true,
    allocFn := fun m _ => some (m, 0) }

/-- Claim C2 is a code bug: the spec's invariant — every guest-triggered
failure of `http.get` / `http.request` is returned to the guest as the
-1 sentinel and never panics the host process — is violated by the code.
`read_string_from_memory` (http.rs line 237) and
`read_bytes_from_memory` (line 249) allocate `vec![0u8; len]` with the
guest-supplied length BEFORE the bounds-checked read, and `i32 as usize`
sign-extends, so a guest passing length -1 asks for a
18446744073709551615-byte buffer and the host panics with a capacity
overflow instead of the guest receiving -1.  This theorem evaluates the
embedded code at that failing input: a call with a memory export present
and a length of -1 (for the URL in `http.get`, for the method in
`http.request`) panics rather than returning any value. -/
theorem c2_panic_on_negative_length :
    httpGetHostFn hOracles hCaller 0 (-1) 32 = HostOutcome.panic "capacity overflow" ∧
    httpRequestHostFn hOracles hCaller 0 1 2 (-1) 4 0 0 0 32 =
      HostOutcome.panic "capacity overflow" :=
  ⟨rfl, rfl⟩

/-- Claim C10: in `http.request`, a headers buffer that reads back as
valid UTF-8 but does not parse as a JSON string-to-string map is
silently ignored: `make_http_request_sync` behaves exactly as with no
headers argument, and the whole host call behaves exactly as the same
call with `headers_len = 0` — in particular it does not return the -1
sentinel on account of the malformed header map. -/
theorem c10_malformed_headers_ignored :
    (∀ (o : HostOracles) (url method hs : String) (body : Option (List Nat)),
      o.parseHeaderMap hs = none →
      makeHttpRequestSync o url method (some hs) body =
        makeHttpRequestSync o url method none body) ∧
    (∀ (o : HostOracles) (c : HttpCaller)
        (uP uL mP mL hP hL bP bL rP : Int) (hs : String),
      hL > 0 →
      readStringFromMemory o c.mem hP hL = .ok hs →
      o.parseHeaderMap hs = none →
      httpRequestHostFn o c uP uL mP mL hP hL bP bL rP =
        httpRequestHostFn o c uP uL mP mL hP 0 bP bL rP) := by
  have h1 : ∀ (o : HostOracles) (url method hs : String) (body : Option (List Nat)),
      o.parseHeaderMap hs = none →
      makeHttpRequestSync o url method (some hs) body =
        makeHttpRequestSync o url method none body := by
    intro o url method hs body hp
    simp [makeHttpRequestSync, hp]
  refine ⟨h1, ?_⟩
  intro o c uP uL mP mL hP hL bP bL rP hs hHL hh hparse
  have h0np : ¬ ((0 : Int) > 0) := by norm_num
  by_cases hM : c.hasMemory = true
  · cases hu : readStringFromMemory o c.mem uP uL with
    | err => simp [httpRequestHostFn, hM, hu]
    | panic msg => simp [httpRequestHostFn, hM, hu]
    | ok url =>
      cases hm2 : readStringFromMemory o c.mem mP mL with
      | err => simp [httpRequestHostFn, hM, hu, hm2]
      | panic msg => simp [httpRequestHostFn, hM, hu, hm2]
      | ok method =>
        by_cases hBL : bL > 0
        · cases hb : readBytesFromMemory c.mem bP bL with
          | err => simp [httpRequestHostFn, hM, hu, hm2, hHL, hh, hBL, hb, h0np]
          | panic msg => simp [httpRequestHostFn, hM, hu, hm2, hHL, hh, hBL, hb, h0np]
          | ok b =>
            simp [httpRequestHostFn, hM, hu, hm2, hHL, hh, hBL, hb, h0np,
              h1 o url method hs (some b) hparse]
        · simp [httpRequestHostFn, hM, hu, hm2, hHL, hh, hBL, h0np,
            h1 o url method hs none hparse]
  · simp [httpRequestHostFn, hM]

/-- Witness for C10: with a header-map parser that rejects everything, a
request carrying a 1-byte headers buffer behaves exactly like the same
request with no headers, and the transport step with the malformed map
equals the transport step with no headers. -/
theorem c10_malformed_headers_ignored_witness :
    httpRequestHostFn hOracles hCaller 0 1 2 1 4 1 0 0 32 =
      httpRequestHostFn hOracles hCaller 0 1 2 1 4 0 0 0 32 ∧
    makeHttpRequestSync hOracles "u" "GET" (some "x") none =
      makeHttpRequestSync hOracles "u" "GET" none none :=
  ⟨c10_malformed_headers_ignored.2 hOracles hCaller 0 1 2 1 4 1 0 0 32 "h"
      (by norm_num) rfl rfl,
   c10_malformed_headers_ignored.1 hOracles "u" "GET" "x" none rfl⟩

end Modulaur
